import Mathlib

/-!
Shallow embedding of Snabric.js (a thin adapter bridging a Fabric.js canvas
and Snap.SVG vector images), together with proofs about its operations.

The embedding models:
* `Snabric.Grid` and its `_constructGroup` line-drawing loops;
* the Snabric state (fabric canvas object list, image-to-mirror map,
  hidden staging container, cached grid) and the operations
  `_updateCanvasImage`, `loadFromUrl`, `remove`, `setGridVisibility`.

Asynchronous callback completions are modelled as completed operations:
each operation returns the resulting state plus observable events
(callback invocation, redraw). Reference identity of JavaScript objects is
modelled by numeric identifiers issued from per-kind counters in the state.
-/

namespace Snabric

/-- JavaScript `v || d` for an optional number (`0` and absence are falsy). -/
def jsOrNat : Option ℕ → ℕ → ℕ
  | none, d => d
  | some 0, d => d
  | some (n + 1), _ => n + 1

/-- JavaScript `v || d` for an optional string (`""` and absence are falsy). -/
def jsOrStr : Option String → String → String
  | none, d => d
  | some s, d => if s = "" then d else s

/-- JavaScript `v || d` for an optional rational (`0` and absence are falsy). -/
def jsOrRat : Option ℚ → ℚ → ℚ
  | none, d => d
  | some q, d => if q = 0 then d else q

/-- The values taken by the loop variable of
`for (var y = tileSize; y < bound; y += tileSize)`.
The source always calls this with `tileSize ≥ 1` (the `|| 1` default);
for `tileSize = 0` the JavaScript loop would not terminate, and the
embedding returns `[]` (that case is unreachable from the operations). -/
def loopFrom (t y d : ℕ) : List ℕ :=
  if _h : 0 < t ∧ y < d then y :: loopFrom t (y + t) d else []
  termination_by d - y
  decreasing_by omega

/-- A `fabric.Line` as constructed by the grid: endpoints plus stroke style. -/
structure Line where
  x1 : ℕ
  y1 : ℕ
  x2 : ℕ
  y2 : ℕ
  stroke : String
  strokeWidth : ℚ
deriving DecidableEq, Repr

/-- Recorded grid dimensions (`_dimensions`). -/
structure Dimensions where
  width : ℕ
  height : ℕ
deriving DecidableEq, Repr

/-- The grid options object. Absent keys are `none`; the stroke width is
passed under the key `stroke` as in the source. -/
structure GridOptions where
  width : Option ℕ
  height : Option ℕ
  tileSize : Option ℕ
  strokeColor : Option String
  stroke : Option ℚ
deriving DecidableEq, Repr

/-- The empty options object `{}`. -/
def GridOptions.empty : GridOptions :=
  { width := none, height := none, tileSize := none, strokeColor := none, stroke := none }

/-- Source `Snabric.Grid.prototype._constructGroup`: draws horizontal lines at
`tileSize` steps below the canvas height and vertical lines at `tileSize`
steps below the canvas width, and records the dimensions used. Returns the
line group and the recorded dimensions. -/
def constructGroup (options : GridOptions) : List Line × Dimensions :=
  let canvasWidth := jsOrNat options.width 0
  let canvasHeight := jsOrNat options.height 0
  let tileSize := jsOrNat options.tileSize 1
  let strokeColor := jsOrStr options.strokeColor "green"
  let strokeWidth := jsOrRat options.stroke (1 / 2)
  let hLines := (loopFrom tileSize tileSize canvasHeight).map fun y =>
    { x1 := 0, y1 := y, x2 := canvasWidth, y2 := y,
      stroke := strokeColor, strokeWidth := strokeWidth }
  let vLines := (loopFrom tileSize tileSize canvasWidth).map fun x =>
    { x1 := x, y1 := 0, x2 := x, y2 := canvasHeight,
      stroke := strokeColor, strokeWidth := strokeWidth }
  (hLines ++ vLines, { width := canvasWidth, height := canvasHeight })

/-- A `Snabric.Grid` object: its options, the fabric group of lines, the
recorded dimensions, and an identifier `gid` modelling reference identity
of the group object. -/
structure Grid where
  options : GridOptions
  group : List Line
  dimensions : Dimensions
  gid : ℕ
deriving DecidableEq, Repr

/-- The `Snabric.Grid` constructor: builds the group via `_constructGroup`. -/
def Grid.make (options : GridOptions) (gid : ℕ) : Grid :=
  { options := options
    group := (constructGroup options).1
    dimensions := (constructGroup options).2
    gid := gid }

/-- Objects held by the fabric canvas object list. The code only ever adds
fabric images and the grid group, but `fabric.Canvas.remove` can be handed
any object, so a Snabric image handle is also representable. -/
inductive CanvasObject
  | fabricImage (id : ℕ)
  | gridGroup (gid : ℕ)
  | snabricImage (id : ℕ)
deriving DecidableEq, Repr

/-- A raster snapshot (data URL) of an SVG document with content `doc`. -/
structure Raster where
  doc : ℕ
deriving DecidableEq, Repr

/-- Rasterization (`ctx.drawSvg` plus `canvas.toDataURL`): the raster of a document. -/
def rasterize (doc : ℕ) : Raster := { doc := doc }

/-- JavaScript `Map.prototype.get` on an association list with numeric identity keys. -/
def mapGet {β : Type} (k : ℕ) : List (ℕ × β) → Option β
  | [] => none
  | (k', v) :: rest => if k = k' then some v else mapGet k rest

/-- JavaScript `Map.prototype.set`: replace the entry for an existing key, else append. -/
def mapSet {β : Type} (k : ℕ) (v : β) : List (ℕ × β) → List (ℕ × β)
  | [] => [(k, v)]
  | (k', v') :: rest => if k = k' then (k, v) :: rest else (k', v') :: mapSet k v rest

/-- Splice out the first occurrence of an element, as
`fabric.Canvas.remove` and `Node.removeChild` do; no-op when absent. -/
def removeFirst {α : Type} [DecidableEq α] (a : α) : List α → List α
  | [] => []
  | x :: rest => if x = a then rest else x :: removeFirst a rest

/-- How many times an object occurs in the canvas object list. -/
def countObj (o : CanvasObject) (l : List CanvasObject) : ℕ :=
  (l.filter fun x => x = o).length

/-- Source `fabric.Object.sendToBack`: move the object to index 0 (rearmost). -/
def sendToBack (o : CanvasObject) (l : List CanvasObject) : List CanvasObject :=
  o :: removeFirst o l

/-- The state of a `Snabric` instance. Canvas, image and staging objects
are identified by numbers issued from the `next…` counters; `gridsBuilt`
counts `Snabric.Grid` constructions and serves as the next grid identity. -/
structure State where
  canvasWidth : ℕ
  canvasHeight : ℕ
  fCanvas : List CanvasObject
  imgMap : List (ℕ × ℕ)
  fImgSrc : List (ℕ × Raster)
  imgDoc : List (ℕ × ℕ)
  container : List ℕ
  grid : Option Grid
  nextFImgId : ℕ
  nextImgId : ℕ
  nextObjId : ℕ
  gridsBuilt : ℕ
deriving DecidableEq, Repr

/-- The `Snabric` constructor: empty canvas, empty image map, empty
staging container, no grid. -/
def initState (w h : ℕ) : State :=
  { canvasWidth := w, canvasHeight := h, fCanvas := [], imgMap := [],
    fImgSrc := [], imgDoc := [], container := [], grid := none,
    nextFImgId := 0, nextImgId := 0, nextObjId := 0, gridsBuilt := 0 }

/-- Source `Snabric.Image.prototype.getDataUrl`: rasterize the image's current
SVG document. -/
def imageDataUrl (s : State) (sImg : ℕ) : Raster :=
  rasterize ((mapGet sImg s.imgDoc).getD 0)

/-- Result of a completed `_updateCanvasImage` operation: the new state,
the argument the `onUpdate` callback was invoked with (if any), and
whether an explicit `fImg.render` redraw was triggered. -/
structure SyncResult where
  state : State
  callbackInvokedWith : Option ℕ
  redrawTriggered : Bool
deriving DecidableEq, Repr

/-- Source `Snabric.prototype._updateCanvasImage`, run to completion. If the
image map has no fabric image for `sImg`, create one from the image's
data URL, add it to the canvas and record the mapping; otherwise replace
the existing fabric image's pixel source via `setSrc` and render. In both
branches the callback then fires (when one was passed). -/
def updateCanvasImage (s : State) (sImg : ℕ) (hasCallback : Bool) : SyncResult :=
  match mapGet sImg s.imgMap with
  | none =>
    let fImg := s.nextFImgId
    { state :=
        { s with
          fCanvas := s.fCanvas ++ [CanvasObject.fabricImage fImg]
          imgMap := mapSet sImg fImg s.imgMap
          fImgSrc := mapSet fImg (imageDataUrl s sImg) s.fImgSrc
          nextFImgId := s.nextFImgId + 1 }
      callbackInvokedWith := if hasCallback then some sImg else none
      redrawTriggered := false }
  | some fImg =>
    { state := { s with fImgSrc := mapSet fImg (imageDataUrl s sImg) s.fImgSrc }
      callbackInvokedWith := if hasCallback then some sImg else none
      redrawTriggered := true }

/-- Environment outcome of a `loadFromUrl` call: the staging element's
`onload` never fires, or it fires and `getSVGDocument()` returns `none`
(unparseable) or the parsed document. -/
inductive LoadOutcome
  | noLoad
  | loaded (svgDoc : Option ℕ)
deriving DecidableEq, Repr

/-- Result of a `loadFromUrl` call under a given outcome. -/
structure LoadResult where
  state : State
  handleCreated : Option ℕ
  syncPerformed : Bool
  onLoadInvokedWith : Option ℕ
deriving DecidableEq, Repr

/-- Source `Snabric.prototype.loadFromUrl`, run to completion under `outcome`.
A staging `object` element is appended to the hidden container; if its
`onload` fires and yields an SVG document, a `Snabric.Image` is
constructed, `_updateCanvasImage` runs with `onLoad` as callback, and the
staging element is removed; otherwise nothing else happens. -/
def loadFromUrl (s : State) (outcome : LoadOutcome) : LoadResult :=
  let obj := s.nextObjId
  let s0 := { s with container := s.container ++ [obj], nextObjId := s.nextObjId + 1 }
  match outcome with
  | LoadOutcome.noLoad =>
    { state := s0, handleCreated := none, syncPerformed := false, onLoadInvokedWith := none }
  | LoadOutcome.loaded none =>
    { state := s0, handleCreated := none, syncPerformed := false, onLoadInvokedWith := none }
  | LoadOutcome.loaded (some doc) =>
    let sImg := s0.nextImgId
    let s1 := { s0 with imgDoc := mapSet sImg doc s0.imgDoc, nextImgId := s0.nextImgId + 1 }
    let r := updateCanvasImage s1 sImg true
    { state := { r.state with container := removeFirst obj r.state.container }
      handleCreated := some sImg
      syncPerformed := true
      onLoadInvokedWith := r.callbackInvokedWith }

/-- Source `Snabric.prototype.remove`: calls `fCanvas.remove` with the Snabric
image handle itself (not the mapped fabric image). -/
def remove (s : State) (img : ℕ) : State :=
  { s with fCanvas := removeFirst (CanvasObject.snabricImage img) s.fCanvas }

/-- Source `Snabric.prototype.setGridVisibility`. On enable: discard the cached
grid if its recorded dimensions differ from the live canvas dimensions;
build a grid when none is cached, overriding the caller's width/height
options with the canvas dimensions; add the group to the canvas and send
it to the back only when it is not already contained. On disable: remove
the group from the canvas but keep the cached grid. -/
def setGridVisibility (s : State) (isVisible : Bool) (options : Option GridOptions) : State :=
  if isVisible then
    let s1 :=
      match s.grid with
      | some g =>
        if g.dimensions.width ≠ s.canvasWidth ∨ g.dimensions.height ≠ s.canvasHeight then
          { s with fCanvas := removeFirst (CanvasObject.gridGroup g.gid) s.fCanvas, grid := none }
        else s
      | none => s
    let sg :=
      match s1.grid with
      | none =>
        let opts0 := options.getD GridOptions.empty
        let opts := { opts0 with width := some s1.canvasWidth, height := some s1.canvasHeight }
        let g := Grid.make opts s1.gridsBuilt
        ({ s1 with grid := some g, gridsBuilt := s1.gridsBuilt + 1 }, g)
      | some g => (s1, g)
    let s2 := sg.1
    let g := sg.2
    if CanvasObject.gridGroup g.gid ∈ s2.fCanvas then s2
    else { s2 with
      fCanvas := sendToBack (CanvasObject.gridGroup g.gid)
        (s2.fCanvas ++ [CanvasObject.gridGroup g.gid]) }
  else
    match s.grid with
    | some g => { s with fCanvas := removeFirst (CanvasObject.gridGroup g.gid) s.fCanvas }
    | none => s

/-- Apply a sequence of completed sync operations (image, callback flag). -/
def applySyncs (s : State) : List (ℕ × Bool) → State
  | [] => s
  | (img, cb) :: rest => applySyncs (updateCanvasImage s img cb).state rest

/-- The number of copies of the image's mapped mirror on the canvas. -/
def mirrorCount (s : State) (img : ℕ) : ℕ :=
  match mapGet img s.imgMap with
  | some f => countObj (CanvasObject.fabricImage f) s.fCanvas
  | none => 0

/-- A grid line is horizontal when its endpoints share a positive y. The
lines the source draws in the horizontal loop satisfy this (they sit at
`y ≥ tileSize ≥ 1`), and no line from the vertical loop does (those have
`y1 = 0`). -/
def isHorizontalLine (l : Line) : Bool :=
  decide (l.y1 = l.y2 ∧ 0 < l.y1)

/-- A grid line is vertical when its endpoints share a positive x. -/
def isVerticalLine (l : Line) : Bool :=
  decide (l.x1 = l.x2 ∧ 0 < l.x1)

/-- State invariant backing the at-most-one-mirror property: every fabric
image occurs at most once on the canvas, and every fabric image identifier
recorded in the map or present on the canvas is below the id counter. -/
structure Inv (s : State) : Prop where
  mirror_unique : ∀ f, countObj (CanvasObject.fabricImage f) s.fCanvas ≤ 1
  map_lt : ∀ img f, mapGet img s.imgMap = some f → f < s.nextFImgId
  canvas_lt : ∀ f, CanvasObject.fabricImage f ∈ s.fCanvas → f < s.nextFImgId

/-! ### Lemmas about the grid loop -/

theorem loopFrom_length (t y d : ℕ) :
    (loopFrom t y d).length = (d - y + t - 1) / t := by
  induction y, d using loopFrom.induct t with
  | case1 y d h ih =>
    rw [loopFrom, dif_pos h]
    simp only [List.length_cons, ih]
    obtain ⟨ht, hyd⟩ := h
    rcases le_or_lt t (d - y) with hle | hlt
    · have h1 : d - (y + t) = d - y - t := by omega
      have h2 : d - y - t + t - 1 = d - y - 1 := by omega
      have h3 : d - y + t - 1 = (d - y - 1) + t := by omega
      rw [h1, h2, h3, Nat.add_div_right _ ht]
    · have h1 : d - (y + t) + t - 1 = t - 1 := by omega
      have h2 : (t - 1) / t = 0 := Nat.div_eq_of_lt (by omega)
      have h3 : d - y + t - 1 = (d - y - 1) + t := by omega
      have h4 : (d - y - 1) / t = 0 := Nat.div_eq_of_lt (by omega)
      rw [h1, h2, h3, Nat.add_div_right _ ht, h4]
  | case2 y d h =>
    rw [loopFrom, dif_neg h]
    rcases Nat.eq_zero_or_pos t with ht | ht
    · simp [ht]
    · have hyd : d ≤ y := by omega
      have : d - y + t - 1 = t - 1 := by omega
      rw [this]
      exact (Nat.div_eq_of_lt (by omega)).symm

theorem loopFrom_mem (t y d x : ℕ) :
    x ∈ loopFrom t y d ↔ 0 < t ∧ x < d ∧ y ≤ x ∧ (∃ k, x = y + k * t) := by
  induction y, d using loopFrom.induct t with
  | case1 y d h ih =>
    rw [loopFrom, dif_pos h]
    obtain ⟨ht, hyd⟩ := h
    simp only [List.mem_cons, ih]
    constructor
    · rintro (rfl | ⟨-, hxd, hyx, k, rfl⟩)
      · exact ⟨ht, hyd, le_refl _, 0, by omega⟩
      · exact ⟨ht, hxd, by omega, k + 1, by ring⟩
    · rintro ⟨-, hxd, hyx, k, rfl⟩
      rcases k with _ | k
      · left; omega
      · right
        refine ⟨ht, hxd, by nlinarith, k, by ring⟩
  | case2 y d h =>
    rw [loopFrom, dif_neg h]
    simp only [List.not_mem_nil, false_iff]
    rintro ⟨ht, hxd, hyx, k, rfl⟩
    exact h ⟨ht, by omega⟩

theorem loopFrom_start_length (t d : ℕ) (ht : 0 < t) :
    (loopFrom t t d).length = (d - 1) / t := by
  rw [loopFrom_length]
  rcases le_or_lt t d with hle | hlt
  · congr 1
    omega
  · have h1 : d - t + t - 1 = t - 1 := by omega
    rw [h1, Nat.div_eq_of_lt (by omega), Nat.div_eq_of_lt (by omega)]

theorem loopFrom_start_mem (t d x : ℕ) (ht : 0 < t) :
    x ∈ loopFrom t t d ↔ t ∣ x ∧ t ≤ x ∧ x < d := by
  rw [loopFrom_mem]
  constructor
  · rintro ⟨-, hxd, htx, k, rfl⟩
    exact ⟨⟨k + 1, by ring⟩, htx, hxd⟩
  · rintro ⟨⟨m, rfl⟩, htx, hxd⟩
    have hm : 1 ≤ m := by nlinarith
    refine ⟨ht, hxd, htx, m - 1, ?_⟩
    cases m with
    | zero => omega
    | succ m => rw [Nat.succ_sub_one]; ring

/-- A `0 < jsOrNat o 1` fact: the defaulted tile size is positive. -/
theorem jsOrNat_one_pos (o : Option ℕ) : 0 < jsOrNat o 1 := by
  cases o with
  | none => simp [jsOrNat]
  | some n => cases n <;> simp [jsOrNat]

theorem jsOrNat_some_zero (n : ℕ) : jsOrNat (some n) 0 = n := by
  cases n <;> simp [jsOrNat]

/-! ### Lemmas about grid construction -/

theorem grid_make_dimensions (opts : GridOptions) (gid : ℕ) :
    (Grid.make opts gid).dimensions
      = { width := jsOrNat opts.width 0, height := jsOrNat opts.height 0 } := rfl

theorem grid_make_hcount (opts : GridOptions) (gid : ℕ) :
    ((Grid.make opts gid).group.filter isHorizontalLine).length
      = (jsOrNat opts.height 0 - 1) / jsOrNat opts.tileSize 1 := by
  have ht := jsOrNat_one_pos opts.tileSize
  set t := jsOrNat opts.tileSize 1 with hT
  set w := jsOrNat opts.width 0 with hW
  set h := jsOrNat opts.height 0 with hH
  show ((constructGroup opts).1.filter isHorizontalLine).length = (h - 1) / t
  rw [constructGroup]
  simp only [← hT, ← hW, ← hH]
  rw [List.filter_append]
  have hHor : ∀ l ∈ (loopFrom t t h).map (fun y =>
      ({ x1 := 0, y1 := y, x2 := w, y2 := y,
         stroke := jsOrStr opts.strokeColor "green",
         strokeWidth := jsOrRat opts.stroke (1 / 2) } : Line)), isHorizontalLine l = true := by
    intro l hl
    simp only [List.mem_map] at hl
    obtain ⟨y, hy, rfl⟩ := hl
    have := (loopFrom_start_mem t h y ht).mp hy
    simp [isHorizontalLine]
    omega
  have hVer : ∀ l ∈ (loopFrom t t w).map (fun x =>
      ({ x1 := x, y1 := 0, x2 := x, y2 := h,
         stroke := jsOrStr opts.strokeColor "green",
         strokeWidth := jsOrRat opts.stroke (1 / 2) } : Line)), ¬ isHorizontalLine l = true := by
    intro l hl
    simp only [List.mem_map] at hl
    obtain ⟨x, hx, rfl⟩ := hl
    simp [isHorizontalLine]
  rw [List.filter_eq_self.mpr hHor, List.filter_eq_nil_iff.mpr hVer]
  simp [loopFrom_start_length t h ht]

theorem grid_make_vcount (opts : GridOptions) (gid : ℕ) :
    ((Grid.make opts gid).group.filter isVerticalLine).length
      = (jsOrNat opts.width 0 - 1) / jsOrNat opts.tileSize 1 := by
  have ht := jsOrNat_one_pos opts.tileSize
  set t := jsOrNat opts.tileSize 1 with hT
  set w := jsOrNat opts.width 0 with hW
  set h := jsOrNat opts.height 0 with hH
  show ((constructGroup opts).1.filter isVerticalLine).length = (w - 1) / t
  rw [constructGroup]
  simp only [← hT, ← hW, ← hH]
  rw [List.filter_append]
  have hHor : ∀ l ∈ (loopFrom t t h).map (fun y =>
      ({ x1 := 0, y1 := y, x2 := w, y2 := y,
         stroke := jsOrStr opts.strokeColor "green",
         strokeWidth := jsOrRat opts.stroke (1 / 2) } : Line)), ¬ isVerticalLine l = true := by
    intro l hl
    simp only [List.mem_map] at hl
    obtain ⟨y, hy, rfl⟩ := hl
    simp [isVerticalLine]
  have hVer : ∀ l ∈ (loopFrom t t w).map (fun x =>
      ({ x1 := x, y1 := 0, x2 := x, y2 := h,
         stroke := jsOrStr opts.strokeColor "green",
         strokeWidth := jsOrRat opts.stroke (1 / 2) } : Line)), isVerticalLine l = true := by
    intro l hl
    simp only [List.mem_map] at hl
    obtain ⟨x, hx, rfl⟩ := hl
    have := (loopFrom_start_mem t w x ht).mp hx
    simp [isVerticalLine]
    omega
  rw [List.filter_eq_nil_iff.mpr hHor, List.filter_eq_self.mpr hVer]
  simp [loopFrom_start_length t w ht]

theorem grid_make_mem (opts : GridOptions) (gid : ℕ) (l : Line) :
    l ∈ (Grid.make opts gid).group ↔
      (∃ y, jsOrNat opts.tileSize 1 ∣ y ∧ jsOrNat opts.tileSize 1 ≤ y
          ∧ y < jsOrNat opts.height 0
          ∧ l = { x1 := 0, y1 := y, x2 := jsOrNat opts.width 0, y2 := y,
                  stroke := jsOrStr opts.strokeColor "green",
                  strokeWidth := jsOrRat opts.stroke (1 / 2) })
      ∨ (∃ x, jsOrNat opts.tileSize 1 ∣ x ∧ jsOrNat opts.tileSize 1 ≤ x
          ∧ x < jsOrNat opts.width 0
          ∧ l = { x1 := x, y1 := 0, x2 := x, y2 := jsOrNat opts.height 0,
                  stroke := jsOrStr opts.strokeColor "green",
                  strokeWidth := jsOrRat opts.stroke (1 / 2) }) := by
  have ht := jsOrNat_one_pos opts.tileSize
  set t := jsOrNat opts.tileSize 1 with hT
  set w := jsOrNat opts.width 0 with hW
  set h := jsOrNat opts.height 0 with hH
  show l ∈ (constructGroup opts).1 ↔ _
  rw [constructGroup]
  simp only [← hT, ← hW, ← hH, List.mem_append, List.mem_map]
  constructor
  · rintro (⟨y, hy, rfl⟩ | ⟨x, hx, rfl⟩)
    · obtain ⟨hdvd, hle, hlt⟩ := (loopFrom_start_mem t h y ht).mp hy
      exact Or.inl ⟨y, hdvd, hle, hlt, rfl⟩
    · obtain ⟨hdvd, hle, hlt⟩ := (loopFrom_start_mem t w x ht).mp hx
      exact Or.inr ⟨x, hdvd, hle, hlt, rfl⟩
  · rintro (⟨y, hdvd, hle, hlt, rfl⟩ | ⟨x, hdvd, hle, hlt, rfl⟩)
    · exact Or.inl ⟨y, (loopFrom_start_mem t h y ht).mpr ⟨hdvd, hle, hlt⟩, rfl⟩
    · exact Or.inr ⟨x, (loopFrom_start_mem t w x ht).mpr ⟨hdvd, hle, hlt⟩, rfl⟩

/-! ### Lemmas about the image map and the sync invariant -/

theorem mapGet_mapSet_self {β : Type} (k : ℕ) (v : β) (l : List (ℕ × β)) :
    mapGet k (mapSet k v l) = some v := by
  induction l with
  | nil => simp [mapGet, mapSet]
  | cons p rest ih =>
    obtain ⟨k', v'⟩ := p
    by_cases h : k = k' <;> simp [mapGet, mapSet, h, ih]

theorem mapGet_mapSet_ne {β : Type} (k k' : ℕ) (v : β) (l : List (ℕ × β)) (h : k ≠ k') :
    mapGet k (mapSet k' v l) = mapGet k l := by
  induction l with
  | nil => simp [mapGet, mapSet, h]
  | cons p rest ih =>
    obtain ⟨k'', v''⟩ := p
    by_cases h1 : k' = k''
    · subst h1
      simp [mapGet, mapSet, h]
    · by_cases h2 : k = k'' <;> simp [mapGet, mapSet, h1, h2, ih]

theorem countObj_append (o : CanvasObject) (l1 l2 : List CanvasObject) :
    countObj o (l1 ++ l2) = countObj o l1 + countObj o l2 := by
  simp [countObj]

theorem countObj_eq_zero (o : CanvasObject) (l : List CanvasObject) :
    countObj o l = 0 ↔ o ∉ l := by
  simp only [countObj, List.length_eq_zero, List.filter_eq_nil_iff, decide_eq_true_eq]
  constructor
  · intro h hmem
    exact h o hmem rfl
  · intro h a ha heq
    exact h (heq ▸ ha)

theorem inv_initState (w h : ℕ) : Inv (initState w h) := by
  constructor
  · intro f; simp [initState, countObj]
  · intro img f hf; simp [initState, mapGet] at hf
  · intro f hf; simp [initState] at hf

theorem inv_updateCanvasImage (s : State) (sImg : ℕ) (cb : Bool) (hInv : Inv s) :
    Inv (updateCanvasImage s sImg cb).state := by
  rcases hget : mapGet sImg s.imgMap with _ | fImg
  · have hstate : (updateCanvasImage s sImg cb).state =
        { s with
          fCanvas := s.fCanvas ++ [CanvasObject.fabricImage s.nextFImgId]
          imgMap := mapSet sImg s.nextFImgId s.imgMap
          fImgSrc := mapSet s.nextFImgId (imageDataUrl s sImg) s.fImgSrc
          nextFImgId := s.nextFImgId + 1 } := by
      simp [updateCanvasImage, hget]
    rw [hstate]
    constructor
    · intro f
      show countObj (CanvasObject.fabricImage f)
        (s.fCanvas ++ [CanvasObject.fabricImage s.nextFImgId]) ≤ 1
      rw [countObj_append]
      by_cases hf : f = s.nextFImgId
      · subst hf
        have h0 : countObj (CanvasObject.fabricImage s.nextFImgId) s.fCanvas = 0 := by
          rw [countObj_eq_zero]
          intro hmem
          exact absurd (hInv.canvas_lt _ hmem) (lt_irrefl _)
        rw [h0]
        simp [countObj]
      · have h1 : countObj (CanvasObject.fabricImage f)
            [CanvasObject.fabricImage s.nextFImgId] = 0 := by
          rw [countObj_eq_zero]
          simp [hf]
        rw [h1]
        simpa using hInv.mirror_unique f
    · intro img f hf
      show f < s.nextFImgId + 1
      by_cases h : img = sImg
      · subst h
        rw [show mapGet img (mapSet img s.nextFImgId s.imgMap) = some s.nextFImgId from
          mapGet_mapSet_self img s.nextFImgId s.imgMap] at hf
        injection hf with hf
        omega
      · rw [show mapGet img (mapSet sImg s.nextFImgId s.imgMap) = mapGet img s.imgMap from
          mapGet_mapSet_ne img sImg s.nextFImgId s.imgMap h] at hf
        have := hInv.map_lt img f hf
        omega
    · intro f hf
      show f < s.nextFImgId + 1
      simp only [List.mem_append, List.mem_singleton] at hf
      rcases hf with hf | hf
      · have := hInv.canvas_lt f hf
        omega
      · simp only [CanvasObject.fabricImage.injEq] at hf
        omega
  · have hstate : (updateCanvasImage s sImg cb).state =
        { s with fImgSrc := mapSet fImg (imageDataUrl s sImg) s.fImgSrc } := by
      simp [updateCanvasImage, hget]
    rw [hstate]
    constructor
    · intro f
      exact hInv.mirror_unique f
    · intro img f hf
      exact hInv.map_lt img f hf
    · intro f hf
      exact hInv.canvas_lt f hf

theorem inv_applySyncs (s : State) (ops : List (ℕ × Bool)) (hInv : Inv s) :
    Inv (applySyncs s ops) := by
  induction ops generalizing s with
  | nil => exact hInv
  | cons op rest ih =>
    obtain ⟨img, cb⟩ := op
    exact ih _ (inv_updateCanvasImage s img cb hInv)

theorem mirrorCount_le_one (s : State) (hInv : Inv s) (img : ℕ) :
    mirrorCount s img ≤ 1 := by
  rcases hget : mapGet img s.imgMap with _ | f
  · simp [mirrorCount, hget]
  · simpa [mirrorCount, hget] using hInv.mirror_unique f

theorem countObj_cons (o a : CanvasObject) (l : List CanvasObject) :
    countObj o (a :: l) = (if a = o then 1 else 0) + countObj o l := by
  by_cases h : a = o
  · simp [countObj, List.filter_cons, h]
    omega
  · simp [countObj, List.filter_cons, h]

theorem countObj_removeFirst_ne (x o : CanvasObject) (l : List CanvasObject) (h : x ≠ o) :
    countObj o (removeFirst x l) = countObj o l := by
  induction l with
  | nil => rfl
  | cons a rest ih =>
    by_cases ha : a = x
    · subst ha
      simp [removeFirst, countObj_cons, h]
    · simp [removeFirst, ha, countObj_cons, ih]

theorem removeFirst_append_self {α : Type} [DecidableEq α] (a : α) (l : List α) (h : a ∉ l) :
    removeFirst a (l ++ [a]) = l := by
  induction l with
  | nil => simp [removeFirst]
  | cons x rest ih =>
    simp only [List.mem_cons, not_or] at h
    simp only [List.cons_append, removeFirst, List.append_eq]
    rw [if_neg fun hxa => h.1 hxa.symm, ih h.2]

theorem updateCanvasImage_container (s : State) (sImg : ℕ) (cb : Bool) :
    (updateCanvasImage s sImg cb).state.container = s.container := by
  rcases hget : mapGet sImg s.imgMap with _ | f <;> simp [updateCanvasImage, hget]

/-- C1: `_updateCanvasImage` is a two-branch contract. When the image map
holds no mirror for the image, it rasterizes the image, inserts the new
fabric image into the canvas, records the mapping, and invokes the
callback; when a mirror exists, it replaces that mirror's pixel source
with the new rasterization, triggers a redraw, and invokes the callback. -/
theorem updateCanvasImage_contract (s : State) (sImg : ℕ) :
    (mapGet sImg s.imgMap = none →
      (updateCanvasImage s sImg true).state.fCanvas
          = s.fCanvas ++ [CanvasObject.fabricImage s.nextFImgId] ∧
      mapGet sImg (updateCanvasImage s sImg true).state.imgMap = some s.nextFImgId ∧
      mapGet s.nextFImgId (updateCanvasImage s sImg true).state.fImgSrc
          = some (imageDataUrl s sImg) ∧
      (updateCanvasImage s sImg true).callbackInvokedWith = some sImg) ∧
    (∀ fImg, mapGet sImg s.imgMap = some fImg →
      (updateCanvasImage s sImg true).state.fCanvas = s.fCanvas ∧
      (updateCanvasImage s sImg true).state.imgMap = s.imgMap ∧
      mapGet fImg (updateCanvasImage s sImg true).state.fImgSrc
          = some (imageDataUrl s sImg) ∧
      (updateCanvasImage s sImg true).redrawTriggered = true ∧
      (updateCanvasImage s sImg true).callbackInvokedWith = some sImg) := by
  constructor
  · intro hget
    simp [updateCanvasImage, hget, mapGet_mapSet_self]
  · intro fImg hget
    simp [updateCanvasImage, hget, mapGet_mapSet_self]

/-- Witness for `updateCanvasImage_contract` at a concrete fresh state. -/
theorem updateCanvasImage_contract_witness :
    (updateCanvasImage (initState 100 100) 0 true).state.fCanvas
        = [CanvasObject.fabricImage 0] ∧
    (updateCanvasImage (initState 100 100) 0 true).callbackInvokedWith = some 0 := by
  have h := (updateCanvasImage_contract (initState 100 100) 0).1 (by simp [initState, mapGet])
  exact ⟨by simpa [initState] using h.1, h.2.2.2⟩

/-- C2: across any sequence of completed syncs from an invariant-holding
state, the canvas holds at most one mirror per image; the first sync of a
handle creates its mirror (count exactly one), and a sync for an image
that already has a mirror changes neither the canvas object list nor the
mapping (the mirror is replaced in place, never duplicated). -/
theorem canvas_at_most_one_mirror (s : State) (hInv : Inv s)
    (ops : List (ℕ × Bool)) (img : ℕ) :
    mirrorCount (applySyncs s ops) img ≤ 1 ∧
    (∀ cb, mapGet img s.imgMap = none →
      mirrorCount (updateCanvasImage s img cb).state img = 1) ∧
    (∀ f cb, mapGet img s.imgMap = some f →
      (updateCanvasImage s img cb).state.fCanvas = s.fCanvas ∧
      mapGet img (updateCanvasImage s img cb).state.imgMap = some f) := by
  refine ⟨mirrorCount_le_one _ (inv_applySyncs s ops hInv) img, ?_, ?_⟩
  · intro cb hget
    have h0 : countObj (CanvasObject.fabricImage s.nextFImgId) s.fCanvas = 0 := by
      rw [countObj_eq_zero]
      intro hmem
      exact absurd (hInv.canvas_lt _ hmem) (lt_irrefl _)
    simp only [mirrorCount, updateCanvasImage, hget, mapGet_mapSet_self]
    rw [countObj_append, h0]
    simp [countObj]
  · intro f cb hget
    simp [updateCanvasImage, hget]

/-- Witness for `canvas_at_most_one_mirror`: an initial load followed by
two re-syncs of the same handle leaves at most one mirror. -/
theorem canvas_at_most_one_mirror_witness :
    mirrorCount (applySyncs (initState 50 50) [(0, true), (0, true), (0, true)]) 0 ≤ 1 :=
  (canvas_at_most_one_mirror (initState 50 50) (inv_initState 50 50)
    [(0, true), (0, true), (0, true)] 0).1

/-- C3 (code bug): `remove` passes the Snabric image handle itself to
`fabric.Canvas.remove`, so the mapped fabric image is never detached: the
count of any mirror on the canvas is unchanged, and at the concrete
failing input the mirror is still among the canvas objects afterwards. -/
theorem remove_keeps_mirror_on_canvas :
    (∀ (s : State) (img f : ℕ),
      countObj (CanvasObject.fabricImage f) (remove s img).fCanvas
        = countObj (CanvasObject.fabricImage f) s.fCanvas) ∧
    (remove { initState 100 100 with
                fCanvas := [CanvasObject.fabricImage 0]
                imgMap := [(0, 0)]
                fImgSrc := [(0, rasterize 7)]
                nextFImgId := 1 } 0).fCanvas
        = [CanvasObject.fabricImage 0] := by
  constructor
  · intro s img f
    exact countObj_removeFirst_ne _ _ _ (by simp)
  · simp [remove, removeFirst, initState]

/-- C9: `remove` leaves the image-to-mirror map unchanged: the same entry
and mapped mirror are present after the call as before it. -/
theorem remove_preserves_imgMap (s : State) (img : ℕ) :
    (remove s img).imgMap = s.imgMap ∧
    mapGet img (remove s img).imgMap = mapGet img s.imgMap :=
  ⟨rfl, rfl⟩



/-- C8: when the staging element yields no SVG document, the load fails
silently: no handle, no sync, no callback, and the state changes only by
the staging element having been appended; when parsing succeeds, a handle
is constructed, an initial sync records and inserts its mirror, and
`onLoad` is invoked with the handle. -/
theorem loadFromUrl_parse_contract (s : State) (doc : ℕ)
    (hfresh : mapGet s.nextImgId s.imgMap = none) :
    ((loadFromUrl s (LoadOutcome.loaded none)).handleCreated = none ∧
     (loadFromUrl s (LoadOutcome.loaded none)).syncPerformed = false ∧
     (loadFromUrl s (LoadOutcome.loaded none)).onLoadInvokedWith = none ∧
     (loadFromUrl s (LoadOutcome.loaded none)).state
        = { s with container := s.container ++ [s.nextObjId]
                   nextObjId := s.nextObjId + 1 }) ∧
    ((loadFromUrl s (LoadOutcome.loaded (some doc))).handleCreated = some s.nextImgId ∧
     (loadFromUrl s (LoadOutcome.loaded (some doc))).syncPerformed = true ∧
     (loadFromUrl s (LoadOutcome.loaded (some doc))).onLoadInvokedWith = some s.nextImgId ∧
     mapGet s.nextImgId (loadFromUrl s (LoadOutcome.loaded (some doc))).state.imgMap
        = some s.nextFImgId ∧
     CanvasObject.fabricImage s.nextFImgId
        ∈ (loadFromUrl s (LoadOutcome.loaded (some doc))).state.fCanvas) := by
  refine ⟨⟨rfl, rfl, rfl, rfl⟩, ?_⟩
  simp only [loadFromUrl, updateCanvasImage]
  simp [hfresh, mapGet_mapSet_self]

/-- Witness for `loadFromUrl_parse_contract` at a fresh initial state. -/
theorem loadFromUrl_parse_contract_witness :
    (loadFromUrl (initState 10 10) (LoadOutcome.loaded none)).onLoadInvokedWith = none ∧
    (loadFromUrl (initState 10 10) (LoadOutcome.loaded (some 7))).onLoadInvokedWith = some 0 := by
  have h := loadFromUrl_parse_contract (initState 10 10) 7 (by simp [initState, mapGet])
  exact ⟨h.1.2.2.1, h.2.2.2.1⟩

/-- C10: when `onload` fires but `getSVGDocument()` yields nothing, the
staging element stays appended to the hidden container (removal happens
only on the success path). -/
theorem loadFromUrl_failure_keeps_staging_element (s : State) (doc : ℕ)
    (hfresh : s.nextObjId ∉ s.container) :
    (loadFromUrl s (LoadOutcome.loaded none)).state.container
        = s.container ++ [s.nextObjId] ∧
    s.nextObjId ∈ (loadFromUrl s (LoadOutcome.loaded none)).state.container ∧
    (loadFromUrl s (LoadOutcome.loaded (some doc))).state.container = s.container := by
  refine ⟨rfl, by simp [loadFromUrl], ?_⟩
  show removeFirst s.nextObjId (updateCanvasImage _ _ true).state.container = s.container
  rw [updateCanvasImage_container]
  exact removeFirst_append_self _ _ hfresh

/-- Witness for `loadFromUrl_failure_keeps_staging_element`. -/
theorem loadFromUrl_failure_keeps_staging_element_witness :
    (loadFromUrl (initState 10 10) (LoadOutcome.loaded none)).state.container = [0] := by
  have h := loadFromUrl_failure_keeps_staging_element (initState 10 10) 7
    (by simp [initState])
  simpa [initState] using h.1

theorem setGridVisibility_enable_none (s : State) (opts : Option GridOptions)
    (hnone : s.grid = none) :
    (setGridVisibility s true opts).grid
      = some (Grid.make
          { opts.getD GridOptions.empty with
            width := some s.canvasWidth, height := some s.canvasHeight } s.gridsBuilt) ∧
    (setGridVisibility s true opts).gridsBuilt = s.gridsBuilt + 1 := by
  simp only [setGridVisibility, hnone, if_pos]
  split <;> simp



/-- C4 counterexample: enabling the grid on a 20×20 canvas with
tileSize 10 builds a grid with exactly one horizontal line, while
⌊height/tileSize⌋ = ⌊20/10⌋ = 2; the claimed count formula fails when the
tile size divides the dimension. -/
theorem grid_line_count_floor_cex :
    (setGridVisibility (initState 20 20) true
        (some { GridOptions.empty with tileSize := some 10 })).grid.map
      (fun g => (g.group.filter isHorizontalLine).length) = some 1 ∧
    (20 : ℕ) / 10 = 2 := by
  constructor
  · have h := (setGridVisibility_enable_none (initState 20 20)
      (some { GridOptions.empty with tileSize := some 10 }) rfl).1
    rw [h, Option.map_some']
    rw [grid_make_hcount]
    simp [GridOptions.empty, initState, jsOrNat]
  · norm_num

/-- C4 amended: the grid built on enable contains one horizontal line per
positive multiple of tileSize strictly below the canvas height — that is,
⌊(height−1)/tileSize⌋ of them — and one vertical line per positive
multiple of tileSize strictly below the canvas width, ⌊(width−1)/tileSize⌋
of them (this equals ⌊dimension/tileSize⌋ exactly when tileSize does not
divide the dimension); the concrete example (tileSize 10, width 25,
height 15 → vertical lines at x = 10, 20 and one horizontal line at
y = 10) holds. -/
theorem grid_line_counts_on_enable (s : State) (opts : GridOptions)
    (hnone : s.grid = none) :
    (setGridVisibility s true (some opts)).grid.map
        (fun g => (g.group.filter isHorizontalLine).length)
      = some ((s.canvasHeight - 1) / jsOrNat opts.tileSize 1) ∧
    (setGridVisibility s true (some opts)).grid.map
        (fun g => (g.group.filter isVerticalLine).length)
      = some ((s.canvasWidth - 1) / jsOrNat opts.tileSize 1) ∧
    ((Grid.make { GridOptions.empty with
          width := some 25, height := some 15, tileSize := some 10 } 0).group.filter
        isVerticalLine).map Line.x1 = [10, 20] ∧
    ((Grid.make { GridOptions.empty with
          width := some 25, height := some 15, tileSize := some 10 } 0).group.filter
        isHorizontalLine).map Line.y1 = [10] := by
  have h := (setGridVisibility_enable_none s (some opts) hnone).1
  refine ⟨?_, ?_, ?_, ?_⟩
  · rw [h, Option.map_some', grid_make_hcount]
    simp [jsOrNat_some_zero]
  · rw [h, Option.map_some', grid_make_vcount]
    simp [jsOrNat_some_zero]
  · simp [Grid.make, constructGroup, GridOptions.empty, jsOrNat, jsOrStr, jsOrRat,
      loopFrom, isVerticalLine, isHorizontalLine]
  · simp [Grid.make, constructGroup, GridOptions.empty, jsOrNat, jsOrStr, jsOrRat,
      loopFrom, isVerticalLine, isHorizontalLine]

/-- Witness for `grid_line_counts_on_enable` on a 25×15 canvas with
tileSize 10: one horizontal line. -/
theorem grid_line_counts_on_enable_witness :
    (setGridVisibility (initState 25 15) true
        (some { GridOptions.empty with tileSize := some 10 })).grid.map
      (fun g => (g.group.filter isHorizontalLine).length) = some 1 := by
  have h := (grid_line_counts_on_enable (initState 25 15)
    { GridOptions.empty with tileSize := some 10 } rfl).1
  simpa [initState, GridOptions.empty, jsOrNat] using h

/-- C5: grid construction draws horizontal lines exactly at the positive
multiples of tileSize strictly below the canvas height and vertical lines
exactly at the positive multiples of tileSize strictly below the canvas
width, each styled with the (defaulted) stroke color and stroke width,
all grouped in one composite, and records the width and height used. -/
theorem grid_construct_contract (opts : GridOptions) (gid : ℕ) :
    (Grid.make opts gid).dimensions
        = { width := jsOrNat opts.width 0, height := jsOrNat opts.height 0 } ∧
    (∀ l, l ∈ (Grid.make opts gid).group ↔
      (∃ y, jsOrNat opts.tileSize 1 ∣ y ∧ jsOrNat opts.tileSize 1 ≤ y
          ∧ y < jsOrNat opts.height 0
          ∧ l = { x1 := 0, y1 := y, x2 := jsOrNat opts.width 0, y2 := y,
                  stroke := jsOrStr opts.strokeColor "green",
                  strokeWidth := jsOrRat opts.stroke (1 / 2) })
      ∨ (∃ x, jsOrNat opts.tileSize 1 ∣ x ∧ jsOrNat opts.tileSize 1 ≤ x
          ∧ x < jsOrNat opts.width 0
          ∧ l = { x1 := x, y1 := 0, x2 := x, y2 := jsOrNat opts.height 0,
                  stroke := jsOrStr opts.strokeColor "green",
                  strokeWidth := jsOrRat opts.stroke (1 / 2) })) :=
  ⟨grid_make_dimensions opts gid, fun l => grid_make_mem opts gid l⟩

/-- C6: enabling an already-visible grid with unchanged canvas dimensions
changes nothing: the composite is inserted only when not already present,
so no second grid group appears. -/
theorem setGridVisibility_idempotent (s : State) (g : Grid) (opts : Option GridOptions)
    (hg : s.grid = some g)
    (hw : g.dimensions.width = s.canvasWidth)
    (hh : g.dimensions.height = s.canvasHeight)
    (hmem : CanvasObject.gridGroup g.gid ∈ s.fCanvas) :
    setGridVisibility s true opts = s := by
  simp [setGridVisibility, hg, hw, hh, hmem]

/-- Witness for `setGridVisibility_idempotent` at a concrete state with a
visible grid matching the canvas dimensions. -/
theorem setGridVisibility_idempotent_witness :
    setGridVisibility
      { initState 0 0 with
        grid := some { options := GridOptions.empty, group := [],
                       dimensions := { width := 0, height := 0 }, gid := 0 }
        fCanvas := [CanvasObject.gridGroup 0]
        gridsBuilt := 1 } true none
      = { initState 0 0 with
          grid := some { options := GridOptions.empty, group := [],
                         dimensions := { width := 0, height := 0 }, gid := 0 }
          fCanvas := [CanvasObject.gridGroup 0]
          gridsBuilt := 1 } :=
  setGridVisibility_idempotent _ _ none rfl rfl rfl (by simp)

/-- C7: on enable with a cached grid, stale recorded dimensions cause a
rebuild whose width and height are the live canvas dimensions (the
caller's width/height options are overridden); unchanged dimensions reuse
the exact cached grid object with no rebuild, and the cached group ends
up on the canvas. -/
theorem setGridVisibility_rebuild_or_reuse (s : State) (g : Grid) (opts : GridOptions)
    (hg : s.grid = some g) :
    ((g.dimensions.width ≠ s.canvasWidth ∨ g.dimensions.height ≠ s.canvasHeight) →
      (setGridVisibility s true (some opts)).grid
        = some (Grid.make { opts with width := some s.canvasWidth,
                                      height := some s.canvasHeight } s.gridsBuilt) ∧
      (setGridVisibility s true (some opts)).grid.map Grid.dimensions
        = some { width := s.canvasWidth, height := s.canvasHeight } ∧
      (setGridVisibility s true (some opts)).gridsBuilt = s.gridsBuilt + 1) ∧
    (g.dimensions.width = s.canvasWidth → g.dimensions.height = s.canvasHeight →
      (setGridVisibility s true (some opts)).grid = some g ∧
      (setGridVisibility s true (some opts)).gridsBuilt = s.gridsBuilt ∧
      CanvasObject.gridGroup g.gid ∈ (setGridVisibility s true (some opts)).fCanvas) := by
  constructor
  · intro hne
    simp only [setGridVisibility, hg, if_pos hne, if_true, Option.getD_some]
    by_cases hmem : CanvasObject.gridGroup
        (Grid.make { opts with width := some s.canvasWidth,
                               height := some s.canvasHeight } s.gridsBuilt).gid
      ∈ removeFirst (CanvasObject.gridGroup g.gid) s.fCanvas
    · simp [hmem, grid_make_dimensions, jsOrNat_some_zero]
    · simp [hmem, grid_make_dimensions, jsOrNat_some_zero]
  · intro hw hh
    have hnotne : ¬ (g.dimensions.width ≠ s.canvasWidth
        ∨ g.dimensions.height ≠ s.canvasHeight) := by
      simp [hw, hh]
    simp only [setGridVisibility, hg, if_neg hnotne, if_true]
    by_cases hmem : CanvasObject.gridGroup g.gid ∈ s.fCanvas
    · simp [hmem, hg]
    · simp [hmem, hg, sendToBack]

/-- Witness for `setGridVisibility_rebuild_or_reuse`: a cached 1×1 grid on
a 2×3 canvas is discarded and rebuilt, bumping the build counter. -/
theorem setGridVisibility_rebuild_or_reuse_witness :
    (setGridVisibility
      { initState 2 3 with
        grid := some { options := GridOptions.empty, group := [],
                       dimensions := { width := 1, height := 1 }, gid := 0 }
        fCanvas := [CanvasObject.gridGroup 0]
        gridsBuilt := 1 } true (some GridOptions.empty)).gridsBuilt = 2 := by
  have h := (setGridVisibility_rebuild_or_reuse
    { initState 2 3 with
      grid := some { options := GridOptions.empty, group := [],
                     dimensions := { width := 1, height := 1 }, gid := 0 }
      fCanvas := [CanvasObject.gridGroup 0]
      gridsBuilt := 1 }
    { options := GridOptions.empty, group := [],
      dimensions := { width := 1, height := 1 }, gid := 0 }
    GridOptions.empty rfl).1 (by simp [initState])
  simpa using h.2.2

end Snabric
